import Mathlib

/-!
Verification of the structural DLL diff engine (`src/tools/dlldiff.py`)
of the Dinosaur Planet decompilation repository.

The diff engine `iter_diffs` and the driver `diff` are embedded from the
Python source.  The module parser (`dino/dll.py`) and the module-table
parser (`dino/dll_tab.py`) are not part of the sources under inspection;
the record types and derived accessors they provide are modelled from the
specification (spec.md §3), and each such definition is marked
`Modelled from the spec:` in its doc comment.

Byte buffers are modelled as `List Nat` (one entry per byte); Python
integers are `Nat` where the source value is a parsed non-negative header
field, and `Int` where Python subtraction may produce a negative value
(the derived section sizes).
-/

namespace DllDiff

/-- Modelled from the spec: the fixed-layout module header decoded by the
module parser (spec §3, ModuleHeader).  `size` is the header size field,
used as the `.text` start offset; `rodata_offset` and `data_offset` are the
declared section offsets; `ctor_offset`/`dtor_offset` the constructor and
destructor table offsets; `export_offsets` the decoded export table. -/
structure DLLHeader where
  size : Nat
  rodata_offset : Nat
  data_offset : Nat
  ctor_offset : Nat
  dtor_offset : Nat
  export_count : Nat
  export_offsets : List Nat
  deriving DecidableEq, Repr

/-- Modelled from the spec: the relocation table is treated as an opaque
span; only its encoded size matters for diffing (spec §3, RelocationTable). -/
structure RelocTable where
  size : Nat
  deriving DecidableEq, Repr

/-- Modelled from the spec: accessor mirroring `reloc_table.get_size()`. -/
def RelocTable.get_size (t : RelocTable) : Nat :=
  t.size

/-- Modelled from the spec: the parsed module view (spec §3, Module): the
decoded header, the relocation table, and the length of the buffer the
module was parsed from (used by the derived `data` size). -/
structure DLL where
  header : DLLHeader
  reloc_table : RelocTable
  bufLen : Nat
  deriving DecidableEq, Repr

/-- Modelled from the spec: `text_size_bytes = header.rodata_offset - header.size`
(spec §3).  `Int`-valued because Python subtraction may go negative on a
malformed header. -/
def DLL.get_text_size (d : DLL) : Int :=
  (d.header.rodata_offset : Int) - d.header.size

/-- Modelled from the spec:
`rodata_size_bytes = header.data_offset - (header.rodata_offset + reloc_table.size)`
(spec §3). -/
def DLL.get_rodata_size (d : DLL) : Int :=
  (d.header.data_offset : Int) - (d.header.rodata_offset + d.reloc_table.get_size)

/-- Modelled from the spec: `data_size_bytes = buffer_length - header.data_offset`
(spec §3). -/
def DLL.get_data_size (d : DLL) : Int :=
  (d.bufLen : Int) - d.header.data_offset

/-- Modelled from the spec: `ram_size` is the total in-memory footprint
text+rodata+data, used as the implicit `.bss` start offset (spec §3). -/
def DLL.get_ram_size (d : DLL) : Int :=
  d.get_text_size + d.get_rodata_size + d.get_data_size

/-- Reading one byte of a buffer, `data[i]` in the Python source.  Total
with default `0`; the safety theorem for the content loops shows the
indices the engine reads are in bounds, so the default is never exercised
under the section-order invariant. -/
def byteAt (data : List Nat) (i : Nat) : Nat :=
  data.getD i 0

/-- The `for idx in range(...): if a != b: ...; break` loops of the source:
scan indices `i, i+1, ..., i+n-1` and return the first index where `f` and
`g` disagree, if any. -/
def firstMismatchAux (f g : Nat → Nat) : Nat → Nat → Option Nat
  | _, 0 => none
  | i, n + 1 => if f i ≠ g i then some i else firstMismatchAux f g (i + 1) n

/-- First index in `range n` at which `f` and `g` disagree. -/
def firstMismatch (n : Nat) (f g : Nat → Nat) : Option Nat :=
  firstMismatchAux f g 0 n

/-- One discrepancy report yielded by `iter_diffs`.  Each constructor
corresponds to one `yield` statement of the source; the payload fields are
in the order they are interpolated into the format string (expected =
`targ` side first, found = `base` side second, content/export reports also
carry the index). -/
inductive Report where
  | textOffset (expected found : Nat)
  | rodataOffset (expected found : Nat)
  | dataOffset (expected found : Nat)
  | bssOffset (expected found : Int)
  | ctorOffset (expected found : Nat)
  | dtorOffset (expected found : Nat)
  | exportCount (expected found : Nat)
  | exportMismatch (idx : Nat) (expected found : Nat)
  | textSize (expected found : Int)
  | textContent (idx expected found : Nat)
  | rodataSize (expected found : Int)
  | rodataContent (idx expected found : Nat)
  | dataSize (expected found : Int)
  | dataContent (idx expected found : Nat)
  | bssSize (expected found : Nat)
  deriving DecidableEq, Repr

/-- Source check `if base.header.size != targ.header.size: yield ...`. -/
def textOffsetCheck (base targ : DLL) : List Report :=
  if base.header.size ≠ targ.header.size then
    [.textOffset targ.header.size base.header.size]
  else []

/-- Source check `if base.header.rodata_offset != targ.header.rodata_offset: yield ...`. -/
def rodataOffsetCheck (base targ : DLL) : List Report :=
  if base.header.rodata_offset ≠ targ.header.rodata_offset then
    [.rodataOffset targ.header.rodata_offset base.header.rodata_offset]
  else []

/-- Source check `if base.header.data_offset != targ.header.data_offset: yield ...`. -/
def dataOffsetCheck (base targ : DLL) : List Report :=
  if base.header.data_offset ≠ targ.header.data_offset then
    [.dataOffset targ.header.data_offset base.header.data_offset]
  else []

/-- The `.bss` offset check: compares `base.get_ram_size()` with
`targ.get_ram_size()`. -/
def bssOffsetCheck (base targ : DLL) : List Report :=
  if base.get_ram_size ≠ targ.get_ram_size then
    [.bssOffset targ.get_ram_size base.get_ram_size]
  else []

/-- Source check `if base.header.ctor_offset != targ.header.ctor_offset: yield ...`. -/
def ctorCheck (base targ : DLL) : List Report :=
  if base.header.ctor_offset ≠ targ.header.ctor_offset then
    [.ctorOffset targ.header.ctor_offset base.header.ctor_offset]
  else []

/-- Source check `if base.header.dtor_offset != targ.header.dtor_offset: yield ...`. -/
def dtorCheck (base targ : DLL) : List Report :=
  if base.header.dtor_offset ≠ targ.header.dtor_offset then
    [.dtorOffset targ.header.dtor_offset base.header.dtor_offset]
  else []

/-- Export check: count mismatch, or else the positional scan of
`export_offsets` reporting the first differing index (the loop over
`range(base.header.export_count)` with `break` at the first mismatch). -/
def exportCheck (base targ : DLL) : List Report :=
  if base.header.export_count ≠ targ.header.export_count then
    [.exportCount targ.header.export_count base.header.export_count]
  else
    match firstMismatch base.header.export_count
        (fun i => base.header.export_offsets.getD i 0)
        (fun i => targ.header.export_offsets.getD i 0) with
    | some i =>
        [.exportMismatch i (targ.header.export_offsets.getD i 0)
          (base.header.export_offsets.getD i 0)]
    | none => []

/-- The `.text` check: size mismatch, or else the byte walk over
`range(base.get_text_size())` reading `base_data[base.header.size + idx]`
and `targ_data[targ.header.size + idx]`, reporting the first differing
byte. -/
def textCheck (base : DLL) (base_data : List Nat) (targ : DLL)
    (targ_data : List Nat) : List Report :=
  if base.get_text_size ≠ targ.get_text_size then
    [.textSize targ.get_text_size base.get_text_size]
  else
    match firstMismatch base.get_text_size.toNat
        (fun i => byteAt base_data (base.header.size + i))
        (fun i => byteAt targ_data (targ.header.size + i)) with
    | some i =>
        [.textContent i (byteAt targ_data (targ.header.size + i))
          (byteAt base_data (base.header.size + i))]
    | none => []

/-- The `.rodata` check: size mismatch, or else the byte walk starting from
each side's own true rodata start `rodata_offset + reloc_table.get_size()`. -/
def rodataCheck (base : DLL) (base_data : List Nat) (targ : DLL)
    (targ_data : List Nat) : List Report :=
  if base.get_rodata_size ≠ targ.get_rodata_size then
    [.rodataSize targ.get_rodata_size base.get_rodata_size]
  else
    match firstMismatch base.get_rodata_size.toNat
        (fun i => byteAt base_data (base.header.rodata_offset + base.reloc_table.get_size + i))
        (fun i => byteAt targ_data (targ.header.rodata_offset + targ.reloc_table.get_size + i)) with
    | some i =>
        [.rodataContent i
          (byteAt targ_data (targ.header.rodata_offset + targ.reloc_table.get_size + i))
          (byteAt base_data (base.header.rodata_offset + base.reloc_table.get_size + i))]
    | none => []

/-- The `.data` check: size mismatch, or else the byte walk from each side's
`data_offset`. -/
def dataCheck (base : DLL) (base_data : List Nat) (targ : DLL)
    (targ_data : List Nat) : List Report :=
  if base.get_data_size ≠ targ.get_data_size then
    [.dataSize targ.get_data_size base.get_data_size]
  else
    match firstMismatch base.get_data_size.toNat
        (fun i => byteAt base_data (base.header.data_offset + i))
        (fun i => byteAt targ_data (targ.header.data_offset + i)) with
    | some i =>
        [.dataContent i (byteAt targ_data (targ.header.data_offset + i))
          (byteAt base_data (base.header.data_offset + i))]
    | none => []

/-- The `.bss` size check on the externally supplied table sizes. -/
def bssSizeCheck (base_bss_size targ_bss_size : Nat) : List Report :=
  if base_bss_size ≠ targ_bss_size then
    [.bssSize targ_bss_size base_bss_size]
  else []

/-- The diff engine `iter_diffs` of `src/tools/dlldiff.py`: the eleven
checks in source order, each yielding at most one report; the generator's
output is collected into a list. -/
def iter_diffs (base : DLL) (base_data : List Nat) (base_bss_size : Nat)
    (targ : DLL) (targ_data : List Nat) (targ_bss_size : Nat) : List Report :=
  textOffsetCheck base targ
    ++ rodataOffsetCheck base targ
    ++ dataOffsetCheck base targ
    ++ bssOffsetCheck base targ
    ++ ctorCheck base targ
    ++ dtorCheck base targ
    ++ exportCheck base targ
    ++ textCheck base base_data targ targ_data
    ++ rodataCheck base base_data targ targ_data
    ++ dataCheck base base_data targ targ_data
    ++ bssSizeCheck base_bss_size targ_bss_size

/-- Discrepancy category of a report, numbered by the fixed check
precedence of the engine: 0 = `.text` offset, 1 = `.rodata` offset,
2 = `.data` offset, 3 = `.bss` offset, 4 = ctor offset, 5 = dtor offset,
6 = export (count or first differing index), 7 = `.text` size or content,
8 = `.rodata` size or content, 9 = `.data` size or content,
10 = `.bss` size. -/
def category : Report → Nat
  | .textOffset _ _ => 0
  | .rodataOffset _ _ => 1
  | .dataOffset _ _ => 2
  | .bssOffset _ _ => 3
  | .ctorOffset _ _ => 4
  | .dtorOffset _ _ => 5
  | .exportCount _ _ => 6
  | .exportMismatch _ _ _ => 6
  | .textSize _ _ => 7
  | .textContent _ _ _ => 7
  | .rodataSize _ _ => 8
  | .rodataContent _ _ _ => 8
  | .dataSize _ _ => 9
  | .dataContent _ _ _ => 9
  | .bssSize _ _ => 10

/-- Lowercase hexadecimal digits of `n`, as produced by Python for the
`x` format code (digits via `Nat.toDigits 16`, which uses `0`-`9`,
`a`-`f`). -/
def natToHex (n : Nat) : String :=
  (Nat.toDigits 16 n).asString

/-- Python formatting of an `int` with the format spec `#x`: lowercase
hexadecimal prefixed by `0x`, with a leading minus sign for negative
values. -/
def py_hex (i : Int) : String :=
  if i < 0 then "-0x" ++ natToHex (-i).toNat else "0x" ++ natToHex i.toNat

/-- Python formatting of an `int` with the empty format spec (decimal). -/
def py_dec (n : Nat) : String :=
  Nat.repr n

/-- The exact diagnostic string each `yield` of the source produces,
reproducing the format strings of `iter_diffs` (`.format` with `\x7b:#x\x7d`
rendered by `py_hex`, and the plain `\x7b\x7d` of the export index rendered
by `py_dec`). -/
def render : Report → String
  | .textOffset e f =>
      ".text offset mismatch: expected " ++ py_hex e ++ ", found " ++ py_hex f
  | .rodataOffset e f =>
      ".rodata offset mismatch: expected " ++ py_hex e ++ ", found " ++ py_hex f
  | .dataOffset e f =>
      ".data offset mismatch: expected " ++ py_hex e ++ ", found " ++ py_hex f
  | .bssOffset e f =>
      ".bss offset mismatch: expected " ++ py_hex e ++ ", found " ++ py_hex f
  | .ctorOffset e f =>
      "Ctor offset mismatch: expected " ++ py_hex e ++ ", found " ++ py_hex f
  | .dtorOffset e f =>
      "Dtor offset mismatch: expected " ++ py_hex e ++ ", found " ++ py_hex f
  | .exportCount e f =>
      "Export count mismatch: expected " ++ py_hex e ++ ", found " ++ py_hex f
  | .exportMismatch i e f =>
      "First export mismatch at idx " ++ py_dec i ++ ": expected " ++ py_hex e
        ++ ", found " ++ py_hex f
  | .textSize e f =>
      ".text size mismatch: expected " ++ py_hex e ++ ", found " ++ py_hex f
  | .textContent i e f =>
      "First .text mismatch at .text+" ++ py_hex i ++ ": expected " ++ py_hex e
        ++ ", found " ++ py_hex f
  | .rodataSize e f =>
      ".rodata size mismatch: expected " ++ py_hex e ++ ", found " ++ py_hex f
  | .rodataContent i e f =>
      "First .rodata mismatch at .rodata+" ++ py_hex i ++ ": expected " ++ py_hex e
        ++ ", found " ++ py_hex f
  | .dataSize e f =>
      ".data size mismatch: expected " ++ py_hex e ++ ", found " ++ py_hex f
  | .dataContent i e f =>
      "First .data mismatch at .data+" ++ py_hex i ++ ": expected " ++ py_hex e
        ++ ", found " ++ py_hex f
  | .bssSize e f =>
      ".bss size mismatch: expected " ++ py_hex e ++ ", found " ++ py_hex f

/-- The rendered numeric values of a report, in the order they appear in
`render`'s string. -/
def numericFields : Report → List String
  | .textOffset e f => [py_hex e, py_hex f]
  | .rodataOffset e f => [py_hex e, py_hex f]
  | .dataOffset e f => [py_hex e, py_hex f]
  | .bssOffset e f => [py_hex e, py_hex f]
  | .ctorOffset e f => [py_hex e, py_hex f]
  | .dtorOffset e f => [py_hex e, py_hex f]
  | .exportCount e f => [py_hex e, py_hex f]
  | .exportMismatch i e f => [py_dec i, py_hex e, py_hex f]
  | .textSize e f => [py_hex e, py_hex f]
  | .textContent i e f => [py_hex i, py_hex e, py_hex f]
  | .rodataSize e f => [py_hex e, py_hex f]
  | .rodataContent i e f => [py_hex i, py_hex e, py_hex f]
  | .dataSize e f => [py_hex e, py_hex f]
  | .dataContent i e f => [py_hex i, py_hex e, py_hex f]
  | .bssSize e f => [py_hex e, py_hex f]

/-- The numeric values of a report that `render` formats with the Python
`#x` (hexadecimal) format code: all of them, except the export-mismatch
index. -/
def hexFields : Report → List String
  | .textOffset e f => [py_hex e, py_hex f]
  | .rodataOffset e f => [py_hex e, py_hex f]
  | .dataOffset e f => [py_hex e, py_hex f]
  | .bssOffset e f => [py_hex e, py_hex f]
  | .ctorOffset e f => [py_hex e, py_hex f]
  | .dtorOffset e f => [py_hex e, py_hex f]
  | .exportCount e f => [py_hex e, py_hex f]
  | .exportMismatch _ e f => [py_hex e, py_hex f]
  | .textSize e f => [py_hex e, py_hex f]
  | .textContent i e f => [py_hex i, py_hex e, py_hex f]
  | .rodataSize e f => [py_hex e, py_hex f]
  | .rodataContent i e f => [py_hex i, py_hex e, py_hex f]
  | .dataSize e f => [py_hex e, py_hex f]
  | .dataContent i e f => [py_hex i, py_hex e, py_hex f]
  | .bssSize e f => [py_hex e, py_hex f]

/-- The numeric values of a report that `render` formats with the plain
(decimal) format code: only the export-mismatch index. -/
def decFields : Report → List String
  | .exportMismatch i _ _ => [py_dec i]
  | _ => []

/-- Sanity check that the split is exhaustive: the decimal fields together
with the hexadecimal fields are exactly the numeric fields of a report. -/
theorem decFields_append_hexFields (r : Report) :
    decFields r ++ hexFields r = numericFields r := by
  cases r <;> rfl

/-- True when `s` begins with the two characters `0x`. -/
def startsWith0x (s : String) : Bool :=
  s.data.take 2 == ['0', 'x']

/-- Is the report in the export category (count mismatch or first
differing export index)? -/
def isExportReport : Report → Bool
  | .exportCount _ _ => true
  | .exportMismatch _ _ _ => true
  | _ => false

/-- Is the report a `.text` size mismatch? -/
def isTextSizeReport : Report → Bool
  | .textSize _ _ => true
  | _ => false

/-- Is the report a first-differing-byte report for `.text`? -/
def isTextContentReport : Report → Bool
  | .textContent _ _ _ => true
  | _ => false

/-- Is the report a `.rodata` size mismatch? -/
def isRodataSizeReport : Report → Bool
  | .rodataSize _ _ => true
  | _ => false

/-- Is the report a first-differing-byte report for `.rodata`? -/
def isRodataContentReport : Report → Bool
  | .rodataContent _ _ _ => true
  | _ => false

/-- Is the report a `.data` size mismatch? -/
def isDataSizeReport : Report → Bool
  | .dataSize _ _ => true
  | _ => false

/-- Is the report a first-differing-byte report for `.data`? -/
def isDataContentReport : Report → Bool
  | .dataContent _ _ _ => true
  | _ => false

/-- Is the report the declared `.rodata` offset mismatch? -/
def isRodataOffsetReport : Report → Bool
  | .rodataOffset _ _ => true
  | _ => false

/-- Modelled from the spec: one record of the companion module table,
carrying the declared `bss_size` of the module (spec §3, ModuleTableEntry). -/
structure DLLTabEntry where
  bss_size : Nat
  deriving DecidableEq, Repr

/-- Modelled from the spec: the parsed module table, an ordered sequence of
entries (spec §4.2). -/
structure DLLTab where
  entries : List DLLTabEntry
  deriving DecidableEq, Repr

/-- Python list subscript semantics, `l[i]`: non-negative indices select
from the front, indices in `[-len, -1]` select from the back, anything
else raises `IndexError` (modelled as `none`). -/
def pyIndex {α : Type} (l : List α) (i : Int) : Option α :=
  if 0 ≤ i then l[i.toNat]?
  else if -(l.length : Int) ≤ i then l[(l.length + i).toNat]?
  else none

/-- The pure core of the driver `diff`: for module identifier `dll_int`
(already parsed from its decimal string by `int(dll)`), look up
`entries[dll_int - 1].bss_size` in each side's table and run `iter_diffs`
with exactly those two sizes; `none` models the `IndexError` Python would
raise when the subscript is out of range. -/
def diff_reports (base_tab targ_tab : DLLTab) (dll_int : Int) (base : DLL)
    (base_data : List Nat) (targ : DLL) (targ_data : List Nat) :
    Option (List Report) :=
  match pyIndex base_tab.entries (dll_int - 1),
      pyIndex targ_tab.entries (dll_int - 1) with
  | some base_entry, some targ_entry =>
      some (iter_diffs base base_data base_entry.bss_size
        targ targ_data targ_entry.bss_size)
  | _, _ => none

/-- The section-order invariant the spec assumes of a parsed module
(spec §3): header end at or before the declared rodata offset, the
relocation table ending at or before the data offset, and the data offset
within the buffer. -/
def SectionsWellFormed (d : DLL) : Prop :=
  d.header.size ≤ d.header.rodata_offset ∧
    d.header.rodata_offset + d.reloc_table.get_size ≤ d.header.data_offset ∧
    d.header.data_offset ≤ d.bufLen

instance (d : DLL) : Decidable (SectionsWellFormed d) := by
  unfold SectionsWellFormed
  infer_instance

/-! ### Properties of the first-mismatch scan -/

theorem firstMismatchAux_self (f : Nat → Nat) (i n : Nat) :
    firstMismatchAux f f i n = none := by
  induction n generalizing i with
  | zero => rfl
  | succ n ih => simp [firstMismatchAux, ih]

theorem firstMismatchAux_eq_none (f g : Nat → Nat) (i n : Nat)
    (h : ∀ j, j < n → f (i + j) = g (i + j)) :
    firstMismatchAux f g i n = none := by
  induction n generalizing i with
  | zero => rfl
  | succ n ih =>
    have h0 : f i = g i := by simpa using h 0 (Nat.succ_pos n)
    unfold firstMismatchAux
    rw [if_neg (not_not_intro h0)]
    exact ih (i + 1) fun j hj => by
      have e : i + 1 + j = i + (j + 1) := by omega
      rw [e]
      exact h (j + 1) (by omega)

theorem firstMismatchAux_eq_some (f g : Nat → Nat) (n : Nat) :
    ∀ i m, m < n → f (i + m) ≠ g (i + m) →
      (∀ j, j < m → f (i + j) = g (i + j)) →
      firstMismatchAux f g i n = some (i + m) := by
  induction n with
  | zero => intro i m hm; omega
  | succ n ih =>
    intro i m hm hne hlt
    match m with
    | 0 =>
      unfold firstMismatchAux
      rw [if_pos (by simpa using hne)]
      simp
    | m' + 1 =>
      have hfi : f i = g i := by simpa using hlt 0 (by omega)
      unfold firstMismatchAux
      rw [if_neg (not_not_intro hfi)]
      have e : i + 1 + m' = i + (m' + 1) := by omega
      have hne' : f (i + 1 + m') ≠ g (i + 1 + m') := by rw [e]; exact hne
      have hlt' : ∀ j, j < m' → f (i + 1 + j) = g (i + 1 + j) := by
        intro j hj
        have e2 : i + 1 + j = i + (j + 1) := by omega
        rw [e2]
        exact hlt (j + 1) (by omega)
      rw [ih (i + 1) m' (by omega) hne' hlt']
      simp only [Option.some.injEq]
      omega

theorem firstMismatchAux_some_spec (f g : Nat → Nat) (n : Nat) :
    ∀ i m, firstMismatchAux f g i n = some m →
      i ≤ m ∧ m < i + n ∧ f m ≠ g m ∧ ∀ j, i ≤ j → j < m → f j = g j := by
  induction n with
  | zero => intro i m h; exact absurd h (by simp [firstMismatchAux])
  | succ n ih =>
    intro i m h
    unfold firstMismatchAux at h
    by_cases hc : f i ≠ g i
    · rw [if_pos hc] at h
      obtain rfl : i = m := by simpa using h
      exact ⟨le_refl _, by omega, hc,
        fun j hj1 hj2 => absurd hj2 (Nat.not_lt.mpr hj1)⟩
    · rw [if_neg hc] at h
      obtain ⟨h1, h2, h3, h4⟩ := ih (i + 1) m h
      push_neg at hc
      refine ⟨by omega, by omega, h3, ?_⟩
      intro j hj1 hj2
      rcases Nat.eq_or_lt_of_le hj1 with rfl | hltj
      · exact hc
      · exact h4 j (by omega) hj2

theorem firstMismatch_self (n : Nat) (f : Nat → Nat) :
    firstMismatch n f f = none :=
  firstMismatchAux_self f 0 n

theorem firstMismatch_eq_none (n : Nat) (f g : Nat → Nat)
    (h : ∀ j, j < n → f j = g j) : firstMismatch n f g = none :=
  firstMismatchAux_eq_none f g 0 n (by simpa using h)

theorem firstMismatch_eq_some (n m : Nat) (f g : Nat → Nat) (hm : m < n)
    (hne : f m ≠ g m) (hlt : ∀ j, j < m → f j = g j) :
    firstMismatch n f g = some m := by
  have := firstMismatchAux_eq_some f g n 0 m hm (by simpa using hne)
    (by simpa using hlt)
  simpa using this

theorem firstMismatch_some_spec (n m : Nat) (f g : Nat → Nat)
    (h : firstMismatch n f g = some m) :
    m < n ∧ f m ≠ g m ∧ ∀ j, j < m → f j = g j := by
  obtain ⟨_, h2, h3, h4⟩ := firstMismatchAux_some_spec f g n 0 m h
  exact ⟨by omega, h3, fun j hj => h4 j (Nat.zero_le j) hj⟩

/-! ### Per-check shape lemmas: each check emits at most one report, of a
fixed category -/

theorem category_of_mem_textOffsetCheck {base targ : DLL} {r : Report}
    (h : r ∈ textOffsetCheck base targ) : category r = 0 := by
  unfold textOffsetCheck at h
  split at h
  · simp at h; subst h; rfl
  · simp at h

theorem category_of_mem_rodataOffsetCheck {base targ : DLL} {r : Report}
    (h : r ∈ rodataOffsetCheck base targ) : category r = 1 := by
  unfold rodataOffsetCheck at h
  split at h
  · simp at h; subst h; rfl
  · simp at h

theorem category_of_mem_dataOffsetCheck {base targ : DLL} {r : Report}
    (h : r ∈ dataOffsetCheck base targ) : category r = 2 := by
  unfold dataOffsetCheck at h
  split at h
  · simp at h; subst h; rfl
  · simp at h

theorem category_of_mem_bssOffsetCheck {base targ : DLL} {r : Report}
    (h : r ∈ bssOffsetCheck base targ) : category r = 3 := by
  unfold bssOffsetCheck at h
  split at h
  · simp at h; subst h; rfl
  · simp at h

theorem category_of_mem_ctorCheck {base targ : DLL} {r : Report}
    (h : r ∈ ctorCheck base targ) : category r = 4 := by
  unfold ctorCheck at h
  split at h
  · simp at h; subst h; rfl
  · simp at h

theorem category_of_mem_dtorCheck {base targ : DLL} {r : Report}
    (h : r ∈ dtorCheck base targ) : category r = 5 := by
  unfold dtorCheck at h
  split at h
  · simp at h; subst h; rfl
  · simp at h

theorem category_of_mem_exportCheck {base targ : DLL} {r : Report}
    (h : r ∈ exportCheck base targ) : category r = 6 := by
  unfold exportCheck at h
  split at h
  · simp at h; subst h; rfl
  · split at h <;> simp at h
    subst h; rfl

theorem category_of_mem_textCheck {base targ : DLL} {bd td : List Nat}
    {r : Report} (h : r ∈ textCheck base bd targ td) : category r = 7 := by
  unfold textCheck at h
  split at h
  · simp at h; subst h; rfl
  · split at h <;> simp at h
    subst h; rfl

theorem category_of_mem_rodataCheck {base targ : DLL} {bd td : List Nat}
    {r : Report} (h : r ∈ rodataCheck base bd targ td) : category r = 8 := by
  unfold rodataCheck at h
  split at h
  · simp at h; subst h; rfl
  · split at h <;> simp at h
    subst h; rfl

theorem category_of_mem_dataCheck {base targ : DLL} {bd td : List Nat}
    {r : Report} (h : r ∈ dataCheck base bd targ td) : category r = 9 := by
  unfold dataCheck at h
  split at h
  · simp at h; subst h; rfl
  · split at h <;> simp at h
    subst h; rfl

theorem category_of_mem_bssSizeCheck {b t : Nat} {r : Report}
    (h : r ∈ bssSizeCheck b t) : category r = 10 := by
  unfold bssSizeCheck at h
  split at h
  · simp at h; subst h; rfl
  · simp at h

theorem length_textOffsetCheck (base targ : DLL) :
    (textOffsetCheck base targ).length ≤ 1 := by
  unfold textOffsetCheck; split <;> simp

theorem length_rodataOffsetCheck (base targ : DLL) :
    (rodataOffsetCheck base targ).length ≤ 1 := by
  unfold rodataOffsetCheck; split <;> simp

theorem length_dataOffsetCheck (base targ : DLL) :
    (dataOffsetCheck base targ).length ≤ 1 := by
  unfold dataOffsetCheck; split <;> simp

theorem length_bssOffsetCheck (base targ : DLL) :
    (bssOffsetCheck base targ).length ≤ 1 := by
  unfold bssOffsetCheck; split <;> simp

theorem length_ctorCheck (base targ : DLL) :
    (ctorCheck base targ).length ≤ 1 := by
  unfold ctorCheck; split <;> simp

theorem length_dtorCheck (base targ : DLL) :
    (dtorCheck base targ).length ≤ 1 := by
  unfold dtorCheck; split <;> simp

theorem length_exportCheck (base targ : DLL) :
    (exportCheck base targ).length ≤ 1 := by
  unfold exportCheck
  split
  · simp
  · split <;> simp

theorem length_textCheck (base targ : DLL) (bd td : List Nat) :
    (textCheck base bd targ td).length ≤ 1 := by
  unfold textCheck
  split
  · simp
  · split <;> simp

theorem length_rodataCheck (base targ : DLL) (bd td : List Nat) :
    (rodataCheck base bd targ td).length ≤ 1 := by
  unfold rodataCheck
  split
  · simp
  · split <;> simp

theorem length_dataCheck (base targ : DLL) (bd td : List Nat) :
    (dataCheck base bd targ td).length ≤ 1 := by
  unfold dataCheck
  split
  · simp
  · split <;> simp

theorem length_bssSizeCheck (b t : Nat) :
    (bssSizeCheck b t).length ≤ 1 := by
  unfold bssSizeCheck; split <;> simp

/-! ### Assembling the precedence-order theorem -/

theorem pairwise_cat_of_short {l : List Report} (h : l.length ≤ 1) :
    l.Pairwise fun a b => category a < category b := by
  cases l with
  | nil => exact List.Pairwise.nil
  | cons a tl =>
    cases tl with
    | nil => exact List.pairwise_singleton _ _
    | cons b tl2 => simp at h

/-- A list of blocks, each tagged with its category, each of length at
most one, with strictly increasing tags: the concatenation is strictly
sorted by category. -/
theorem pairwise_join_of_indexed (bs : List (Nat × List Report))
    (hcat : ∀ p ∈ bs, ∀ r ∈ p.2, category r = p.1)
    (hlen : ∀ p ∈ bs, p.2.length ≤ 1)
    (hsorted : (bs.map Prod.fst).Pairwise (· < ·)) :
    ((bs.map Prod.snd).flatten).Pairwise fun a b => category a < category b := by
  induction bs with
  | nil => simp
  | cons p bs ih =>
    simp only [List.map_cons, List.flatten_cons]
    apply List.pairwise_append.mpr
    refine ⟨pairwise_cat_of_short (hlen p (by simp)), ?_, ?_⟩
    · exact ih (fun q hq => hcat q (by simp [hq]))
        (fun q hq => hlen q (by simp [hq]))
        (by simpa using (List.pairwise_cons.mp hsorted).2)
    · intro a ha b hb
      rw [hcat p (by simp) a ha]
      obtain ⟨l', hl', hbl'⟩ := List.mem_flatten.mp hb
      obtain ⟨q, hq, rfl⟩ := List.mem_map.mp hl'
      rw [hcat q (by simp [hq]) b hbl']
      exact (List.pairwise_cons.mp hsorted).1 q.1
        (List.mem_map.mpr ⟨q, hq, rfl⟩)

theorem mem_iter_diffs_iff {base targ : DLL} {bd td : List Nat} {bb tb : Nat}
    {r : Report} :
    r ∈ iter_diffs base bd bb targ td tb ↔
      r ∈ textOffsetCheck base targ ∨ r ∈ rodataOffsetCheck base targ ∨
        r ∈ dataOffsetCheck base targ ∨ r ∈ bssOffsetCheck base targ ∨
        r ∈ ctorCheck base targ ∨ r ∈ dtorCheck base targ ∨
        r ∈ exportCheck base targ ∨ r ∈ textCheck base bd targ td ∨
        r ∈ rodataCheck base bd targ td ∨ r ∈ dataCheck base bd targ td ∨
        r ∈ bssSizeCheck bb tb := by
  unfold iter_diffs
  simp [List.mem_append, or_assoc]

/-- A report in the output whose category singles out one of the
export/text/rodata/data checks came from that check. -/
theorem mem_block_of_category {base targ : DLL} {bd td : List Nat}
    {bb tb : Nat} {r : Report} (hr : r ∈ iter_diffs base bd bb targ td tb) :
    (category r = 6 → r ∈ exportCheck base targ) ∧
      (category r = 7 → r ∈ textCheck base bd targ td) ∧
      (category r = 8 → r ∈ rodataCheck base bd targ td) ∧
      (category r = 9 → r ∈ dataCheck base bd targ td) := by
  rcases mem_iter_diffs_iff.mp hr with h | h | h | h | h | h | h | h | h | h | h
  · have hc := category_of_mem_textOffsetCheck h
    exact ⟨fun hq => (by omega : False).elim, fun hq => (by omega : False).elim,
      fun hq => (by omega : False).elim, fun hq => (by omega : False).elim⟩
  · have hc := category_of_mem_rodataOffsetCheck h
    exact ⟨fun hq => (by omega : False).elim, fun hq => (by omega : False).elim,
      fun hq => (by omega : False).elim, fun hq => (by omega : False).elim⟩
  · have hc := category_of_mem_dataOffsetCheck h
    exact ⟨fun hq => (by omega : False).elim, fun hq => (by omega : False).elim,
      fun hq => (by omega : False).elim, fun hq => (by omega : False).elim⟩
  · have hc := category_of_mem_bssOffsetCheck h
    exact ⟨fun hq => (by omega : False).elim, fun hq => (by omega : False).elim,
      fun hq => (by omega : False).elim, fun hq => (by omega : False).elim⟩
  · have hc := category_of_mem_ctorCheck h
    exact ⟨fun hq => (by omega : False).elim, fun hq => (by omega : False).elim,
      fun hq => (by omega : False).elim, fun hq => (by omega : False).elim⟩
  · have hc := category_of_mem_dtorCheck h
    exact ⟨fun hq => (by omega : False).elim, fun hq => (by omega : False).elim,
      fun hq => (by omega : False).elim, fun hq => (by omega : False).elim⟩
  · have hc := category_of_mem_exportCheck h
    exact ⟨fun _ => h, fun hq => (by omega : False).elim,
      fun hq => (by omega : False).elim, fun hq => (by omega : False).elim⟩
  · have hc := category_of_mem_textCheck h
    exact ⟨fun hq => (by omega : False).elim, fun _ => h,
      fun hq => (by omega : False).elim, fun hq => (by omega : False).elim⟩
  · have hc := category_of_mem_rodataCheck h
    exact ⟨fun hq => (by omega : False).elim, fun hq => (by omega : False).elim,
      fun _ => h, fun hq => (by omega : False).elim⟩
  · have hc := category_of_mem_dataCheck h
    exact ⟨fun hq => (by omega : False).elim, fun hq => (by omega : False).elim,
      fun hq => (by omega : False).elim, fun _ => h⟩
  · have hc := category_of_mem_bssSizeCheck h
    exact ⟨fun hq => (by omega : False).elim, fun hq => (by omega : False).elim,
      fun hq => (by omega : False).elim, fun hq => (by omega : False).elim⟩

theorem category_of_isExportReport {r : Report}
    (h : isExportReport r = true) : category r = 6 := by
  cases r <;> simp_all [isExportReport, category]

theorem category_of_isTextContentReport {r : Report}
    (h : isTextContentReport r = true) : category r = 7 := by
  cases r <;> simp_all [isTextContentReport, category]

theorem category_of_isRodataContentReport {r : Report}
    (h : isRodataContentReport r = true) : category r = 8 := by
  cases r <;> simp_all [isRodataContentReport, category]

theorem category_of_isDataContentReport {r : Report}
    (h : isDataContentReport r = true) : category r = 9 := by
  cases r <;> simp_all [isDataContentReport, category]

theorem textCheck_of_size_ne {base targ : DLL} (bd td : List Nat)
    (h : base.get_text_size ≠ targ.get_text_size) :
    textCheck base bd targ td
      = [.textSize targ.get_text_size base.get_text_size] := by
  unfold textCheck
  rw [if_pos h]

theorem rodataCheck_of_size_ne {base targ : DLL} (bd td : List Nat)
    (h : base.get_rodata_size ≠ targ.get_rodata_size) :
    rodataCheck base bd targ td
      = [.rodataSize targ.get_rodata_size base.get_rodata_size] := by
  unfold rodataCheck
  rw [if_pos h]

theorem dataCheck_of_size_ne {base targ : DLL} (bd td : List Nat)
    (h : base.get_data_size ≠ targ.get_data_size) :
    dataCheck base bd targ td
      = [.dataSize targ.get_data_size base.get_data_size] := by
  unfold dataCheck
  rw [if_pos h]

theorem rodataOffsetCheck_of_ne {base targ : DLL}
    (h : base.header.rodata_offset ≠ targ.header.rodata_offset) :
    rodataOffsetCheck base targ
      = [.rodataOffset targ.header.rodata_offset base.header.rodata_offset] := by
  unfold rodataOffsetCheck
  rw [if_pos h]

theorem byteAt_set_self (data : List Nat) (k b : Nat) (h : k < data.length) :
    byteAt (data.set k b) k = b := by
  unfold byteAt
  rw [List.getD_eq_getElem?_getD, List.getElem?_set_self h]
  rfl

theorem byteAt_set_ne (data : List Nat) (k i b : Nat) (h : i ≠ k) :
    byteAt (data.set k b) i = byteAt data i := by
  unfold byteAt
  rw [List.getD_eq_getElem?_getD, List.getD_eq_getElem?_getD,
    List.getElem?_set_ne (Ne.symm h)]

theorem textOffsetCheck_self (d : DLL) : textOffsetCheck d d = [] := by
  simp [textOffsetCheck]

theorem rodataOffsetCheck_self (d : DLL) : rodataOffsetCheck d d = [] := by
  simp [rodataOffsetCheck]

theorem dataOffsetCheck_self (d : DLL) : dataOffsetCheck d d = [] := by
  simp [dataOffsetCheck]

theorem bssOffsetCheck_self (d : DLL) : bssOffsetCheck d d = [] := by
  simp [bssOffsetCheck]

theorem ctorCheck_self (d : DLL) : ctorCheck d d = [] := by
  simp [ctorCheck]

theorem dtorCheck_self (d : DLL) : dtorCheck d d = [] := by
  simp [dtorCheck]

theorem exportCheck_self (d : DLL) : exportCheck d d = [] := by
  simp [exportCheck, firstMismatch_self]

theorem bssSizeCheck_self (b : Nat) : bssSizeCheck b b = [] := by
  simp [bssSizeCheck]

/-! ### Claim theorems -/

/-- C1: for every pair of parsed modules, buffers, and bss sizes, the
report sequence produced by `iter_diffs` is finite (it is a list), carries
at most one report per discrepancy category, and the reports appear in
strictly increasing category order, where the categories are numbered by
the fixed precedence `.text` offset, `.rodata` offset, `.data` offset,
`.bss` offset, ctor offset, dtor offset, export (count or first differing
index), `.text` size or first content byte, `.rodata` size or first
content byte, `.data` size or first content byte, `.bss` size. -/
theorem C1_fixed_precedence_order (base : DLL) (base_data : List Nat)
    (base_bss_size : Nat) (targ : DLL) (targ_data : List Nat)
    (targ_bss_size : Nat) :
    (iter_diffs base base_data base_bss_size targ targ_data
      targ_bss_size).Pairwise fun a b => category a < category b := by
  have key := pairwise_join_of_indexed
    [(0, textOffsetCheck base targ), (1, rodataOffsetCheck base targ),
      (2, dataOffsetCheck base targ), (3, bssOffsetCheck base targ),
      (4, ctorCheck base targ), (5, dtorCheck base targ),
      (6, exportCheck base targ),
      (7, textCheck base base_data targ targ_data),
      (8, rodataCheck base base_data targ targ_data),
      (9, dataCheck base base_data targ targ_data),
      (10, bssSizeCheck base_bss_size targ_bss_size)]
    ?hcat ?hlen ?hsorted
  case hcat =>
    intro p hp
    simp only [List.mem_cons, List.not_mem_nil, or_false] at hp
    rcases hp with rfl | rfl | rfl | rfl | rfl | rfl | rfl | rfl | rfl | rfl | rfl
    · exact fun r h => category_of_mem_textOffsetCheck h
    · exact fun r h => category_of_mem_rodataOffsetCheck h
    · exact fun r h => category_of_mem_dataOffsetCheck h
    · exact fun r h => category_of_mem_bssOffsetCheck h
    · exact fun r h => category_of_mem_ctorCheck h
    · exact fun r h => category_of_mem_dtorCheck h
    · exact fun r h => category_of_mem_exportCheck h
    · exact fun r h => category_of_mem_textCheck h
    · exact fun r h => category_of_mem_rodataCheck h
    · exact fun r h => category_of_mem_dataCheck h
    · exact fun r h => category_of_mem_bssSizeCheck h
  case hlen =>
    intro p hp
    simp only [List.mem_cons, List.not_mem_nil, or_false] at hp
    rcases hp with rfl | rfl | rfl | rfl | rfl | rfl | rfl | rfl | rfl | rfl | rfl
    · exact length_textOffsetCheck base targ
    · exact length_rodataOffsetCheck base targ
    · exact length_dataOffsetCheck base targ
    · exact length_bssOffsetCheck base targ
    · exact length_ctorCheck base targ
    · exact length_dtorCheck base targ
    · exact length_exportCheck base targ
    · exact length_textCheck base targ base_data targ_data
    · exact length_rodataCheck base targ base_data targ_data
    · exact length_dataCheck base targ base_data targ_data
    · exact length_bssSizeCheck base_bss_size targ_bss_size
  case hsorted =>
    simp only [List.map_cons, List.map_nil]
    decide
  simp only [List.map_cons, List.map_nil, List.flatten_cons, List.flatten_nil,
    List.append_nil] at key
  unfold iter_diffs
  simpa [List.append_assoc] using key

/-- C2: for two byte-for-byte identical module buffers (hence the same
parsed module on both sides) and equal supplied bss sizes, `iter_diffs`
yields the empty report sequence. -/
theorem C2_identical_buffers_empty (d : DLL) (data : List Nat) (bss : Nat) :
    iter_diffs d data bss d data bss = [] := by
  simp [iter_diffs, textOffsetCheck, rodataOffsetCheck, dataOffsetCheck,
    bssOffsetCheck, ctorCheck, dtorCheck, exportCheck, textCheck, rodataCheck,
    dataCheck, bssSizeCheck, firstMismatch_self]

/-- C3: whenever the derived sizes of a section (`.text`, `.rodata`, or
`.data`) differ between the two sides, `iter_diffs` emits the size-mismatch
report for that section and emits no byte-level content report for it; the
byte-walking loop of a section runs only when the derived sizes are
equal. -/
theorem C3_size_mismatch_short_circuits (base : DLL) (base_data : List Nat)
    (base_bss_size : Nat) (targ : DLL) (targ_data : List Nat)
    (targ_bss_size : Nat) (out : List Report)
    (hout : out = iter_diffs base base_data base_bss_size targ targ_data
      targ_bss_size) :
    (base.get_text_size ≠ targ.get_text_size →
        out.any isTextSizeReport = true ∧ out.any isTextContentReport = false) ∧
      (base.get_rodata_size ≠ targ.get_rodata_size →
        out.any isRodataSizeReport = true ∧
          out.any isRodataContentReport = false) ∧
      (base.get_data_size ≠ targ.get_data_size →
        out.any isDataSizeReport = true ∧ out.any isDataContentReport = false) := by
  subst hout
  refine ⟨fun hne => ⟨?_, ?_⟩, fun hne => ⟨?_, ?_⟩, fun hne => ⟨?_, ?_⟩⟩
  · apply List.any_eq_true.mpr
    refine ⟨.textSize targ.get_text_size base.get_text_size, ?_, rfl⟩
    apply mem_iter_diffs_iff.mpr
    refine Or.inr (Or.inr (Or.inr (Or.inr (Or.inr (Or.inr (Or.inr (Or.inl ?_)))))))
    rw [textCheck_of_size_ne base_data targ_data hne]
    simp
  · apply List.any_eq_false.mpr
    intro r hr hp
    have h7 := category_of_isTextContentReport hp
    have hmem := (mem_block_of_category hr).2.1 h7
    rw [textCheck_of_size_ne base_data targ_data hne] at hmem
    simp at hmem
    subst hmem
    simp [isTextContentReport] at hp
  · apply List.any_eq_true.mpr
    refine ⟨.rodataSize targ.get_rodata_size base.get_rodata_size, ?_, rfl⟩
    apply mem_iter_diffs_iff.mpr
    refine Or.inr (Or.inr (Or.inr (Or.inr (Or.inr (Or.inr (Or.inr (Or.inr
      (Or.inl ?_))))))))
    rw [rodataCheck_of_size_ne base_data targ_data hne]
    simp
  · apply List.any_eq_false.mpr
    intro r hr hp
    have h8 := category_of_isRodataContentReport hp
    have hmem := (mem_block_of_category hr).2.2.1 h8
    rw [rodataCheck_of_size_ne base_data targ_data hne] at hmem
    simp at hmem
    subst hmem
    simp [isRodataContentReport] at hp
  · apply List.any_eq_true.mpr
    refine ⟨.dataSize targ.get_data_size base.get_data_size, ?_, rfl⟩
    apply mem_iter_diffs_iff.mpr
    refine Or.inr (Or.inr (Or.inr (Or.inr (Or.inr (Or.inr (Or.inr (Or.inr
      (Or.inr (Or.inl ?_)))))))))
    rw [dataCheck_of_size_ne base_data targ_data hne]
    simp
  · apply List.any_eq_false.mpr
    intro r hr hp
    have h9 := category_of_isDataContentReport hp
    have hmem := (mem_block_of_category hr).2.2.2 h9
    rw [dataCheck_of_size_ne base_data targ_data hne] at hmem
    simp at hmem
    subst hmem
    simp [isDataContentReport] at hp

/-- Witness for C3 at a concrete module pair whose `.text`, `.rodata` and
`.data` derived sizes all differ: the three size reports are present and
no content report is emitted. -/
theorem C3_size_mismatch_short_circuits_witness :
    (iter_diffs ⟨⟨2, 4, 6, 0, 0, 0, []⟩, ⟨0⟩, 8⟩ [] 0
          ⟨⟨2, 5, 6, 0, 0, 0, []⟩, ⟨0⟩, 9⟩ [] 0).any isTextSizeReport = true ∧
      (iter_diffs ⟨⟨2, 4, 6, 0, 0, 0, []⟩, ⟨0⟩, 8⟩ [] 0
          ⟨⟨2, 5, 6, 0, 0, 0, []⟩, ⟨0⟩, 9⟩ [] 0).any isTextContentReport
        = false ∧
      (iter_diffs ⟨⟨2, 4, 6, 0, 0, 0, []⟩, ⟨0⟩, 8⟩ [] 0
          ⟨⟨2, 5, 6, 0, 0, 0, []⟩, ⟨0⟩, 9⟩ [] 0).any isRodataSizeReport = true ∧
      (iter_diffs ⟨⟨2, 4, 6, 0, 0, 0, []⟩, ⟨0⟩, 8⟩ [] 0
          ⟨⟨2, 5, 6, 0, 0, 0, []⟩, ⟨0⟩, 9⟩ [] 0).any isRodataContentReport
        = false ∧
      (iter_diffs ⟨⟨2, 4, 6, 0, 0, 0, []⟩, ⟨0⟩, 8⟩ [] 0
          ⟨⟨2, 5, 6, 0, 0, 0, []⟩, ⟨0⟩, 9⟩ [] 0).any isDataSizeReport = true ∧
      (iter_diffs ⟨⟨2, 4, 6, 0, 0, 0, []⟩, ⟨0⟩, 8⟩ [] 0
          ⟨⟨2, 5, 6, 0, 0, 0, []⟩, ⟨0⟩, 9⟩ [] 0).any isDataContentReport
        = false := by
  obtain ⟨h1, h2, h3⟩ := C3_size_mismatch_short_circuits
    ⟨⟨2, 4, 6, 0, 0, 0, []⟩, ⟨0⟩, 8⟩ [] 0 ⟨⟨2, 5, 6, 0, 0, 0, []⟩, ⟨0⟩, 9⟩ [] 0
    _ rfl
  obtain ⟨h1a, h1b⟩ := h1 (by decide)
  obtain ⟨h2a, h2b⟩ := h2 (by decide)
  obtain ⟨h3a, h3b⟩ := h3 (by decide)
  exact ⟨h1a, h1b, h2a, h2b, h3a, h3b⟩

/-- C4 counterexample: a concrete module pair whose declared
`rodata_offset` values differ while the derived `.rodata` sizes are equal;
`iter_diffs` still performs the byte-level `.rodata` walk and emits a
`.rodata` content-mismatch report, contradicting the claim that no such
report is produced when the offsets differ. -/
theorem C4_counterexample :
    (⟨⟨2, 4, 6, 0, 0, 0, []⟩, ⟨0⟩, 8⟩ : DLL).header.rodata_offset
        ≠ (⟨⟨3, 5, 7, 0, 0, 0, []⟩, ⟨0⟩, 9⟩ : DLL).header.rodata_offset ∧
      (⟨⟨2, 4, 6, 0, 0, 0, []⟩, ⟨0⟩, 8⟩ : DLL).get_rodata_size
        = (⟨⟨3, 5, 7, 0, 0, 0, []⟩, ⟨0⟩, 9⟩ : DLL).get_rodata_size ∧
      (iter_diffs ⟨⟨2, 4, 6, 0, 0, 0, []⟩, ⟨0⟩, 8⟩ [0, 0, 1, 1, 10, 11, 5, 5] 0
          ⟨⟨3, 5, 7, 0, 0, 0, []⟩, ⟨0⟩, 9⟩ [0, 0, 0, 1, 1, 20, 21, 5, 5] 0).any
        isRodataContentReport = true := by
  decide

/-- C4 (amended): when the declared `rodata_offset` values differ,
`iter_diffs` reports the `.rodata` offset mismatch; the byte-level
`.rodata` comparison is short-circuited only by a derived-size mismatch —
if the derived `.rodata` sizes also differ no `.rodata` content report is
produced, but an offset mismatch alone does not suppress the content
walk. -/
theorem C4_amended_offset_mismatch (base : DLL) (base_data : List Nat)
    (base_bss_size : Nat) (targ : DLL) (targ_data : List Nat)
    (targ_bss_size : Nat) (out : List Report)
    (hout : out = iter_diffs base base_data base_bss_size targ targ_data
      targ_bss_size)
    (hne : base.header.rodata_offset ≠ targ.header.rodata_offset) :
    out.any isRodataOffsetReport = true ∧
      (base.get_rodata_size ≠ targ.get_rodata_size →
        out.any isRodataContentReport = false) := by
  subst hout
  constructor
  · apply List.any_eq_true.mpr
    refine ⟨.rodataOffset targ.header.rodata_offset base.header.rodata_offset,
      ?_, rfl⟩
    apply mem_iter_diffs_iff.mpr
    refine Or.inr (Or.inl ?_)
    rw [rodataOffsetCheck_of_ne hne]
    simp
  · intro hsz
    apply List.any_eq_false.mpr
    intro r hr hp
    have h8 := category_of_isRodataContentReport hp
    have hmem := (mem_block_of_category hr).2.2.1 h8
    rw [rodataCheck_of_size_ne base_data targ_data hsz] at hmem
    simp at hmem
    subst hmem
    simp [isRodataContentReport] at hp

/-- Witness for the amended C4 at a concrete module pair with differing
`rodata_offset` and differing derived `.rodata` sizes. -/
theorem C4_amended_offset_mismatch_witness :
    (iter_diffs ⟨⟨2, 4, 6, 0, 0, 0, []⟩, ⟨0⟩, 8⟩ [] 0
          ⟨⟨2, 5, 6, 0, 0, 0, []⟩, ⟨0⟩, 9⟩ [] 0).any isRodataOffsetReport
        = true ∧
      (iter_diffs ⟨⟨2, 4, 6, 0, 0, 0, []⟩, ⟨0⟩, 8⟩ [] 0
          ⟨⟨2, 5, 6, 0, 0, 0, []⟩, ⟨0⟩, 9⟩ [] 0).any isRodataContentReport
        = false := by
  obtain ⟨h1, h2⟩ := C4_amended_offset_mismatch
    ⟨⟨2, 4, 6, 0, 0, 0, []⟩, ⟨0⟩, 8⟩ [] 0 ⟨⟨2, 5, 6, 0, 0, 0, []⟩, ⟨0⟩, 9⟩ [] 0
    _ rfl (by decide)
  exact ⟨h1, h2 (by decide)⟩

/-- C5: for two inputs whose buffers are identical except for exactly one
byte at position `k` inside the `.text` span (the parsed module is
therefore the same on both sides), `iter_diffs` yields exactly one report:
a `.text` content mismatch at in-section offset `k - header.size`, with
the reference (`targ`) side's byte as the expected value and the candidate
(`base`) side's byte as the found value. -/
theorem C5_single_text_byte (d : DLL) (data : List Nat) (bss k b2 : Nat)
    (hwf : SectionsWellFormed d)
    (hk1 : d.header.size ≤ k) (hk2 : k < d.header.rodata_offset)
    (hklen : k < data.length) (hb : b2 ≠ byteAt data k) :
    iter_diffs d data bss d (data.set k b2) bss
      = [.textContent (k - d.header.size) b2 (byteAt data k)] := by
  obtain ⟨hw1, hw2, hw3⟩ := hwf
  have e : d.header.size + (k - d.header.size) = k := by omega
  have htext : textCheck d data d (data.set k b2)
      = [.textContent (k - d.header.size) b2 (byteAt data k)] := by
    unfold textCheck
    rw [if_neg (not_not_intro rfl)]
    have hfm : firstMismatch d.get_text_size.toNat
        (fun i => byteAt data (d.header.size + i))
        (fun i => byteAt (data.set k b2) (d.header.size + i))
        = some (k - d.header.size) := by
      apply firstMismatch_eq_some
      · simp only [DLL.get_text_size]
        omega
      · show byteAt data (d.header.size + (k - d.header.size))
          ≠ byteAt (data.set k b2) (d.header.size + (k - d.header.size))
        rw [e, byteAt_set_self data k b2 hklen]
        exact fun hcontra => hb hcontra.symm
      · intro j hj
        show byteAt data (d.header.size + j)
          = byteAt (data.set k b2) (d.header.size + j)
        rw [byteAt_set_ne data k (d.header.size + j) b2 (by omega)]
    rw [hfm]
    show [Report.textContent (k - d.header.size)
        (byteAt (data.set k b2) (d.header.size + (k - d.header.size)))
        (byteAt data (d.header.size + (k - d.header.size)))] = _
    rw [e, byteAt_set_self data k b2 hklen]
  have hrodata : rodataCheck d data d (data.set k b2) = [] := by
    unfold rodataCheck
    rw [if_neg (not_not_intro rfl)]
    have hfm : firstMismatch d.get_rodata_size.toNat
        (fun i => byteAt data (d.header.rodata_offset + d.reloc_table.get_size + i))
        (fun i => byteAt (data.set k b2)
          (d.header.rodata_offset + d.reloc_table.get_size + i))
        = none := by
      apply firstMismatch_eq_none
      intro j hj
      show byteAt data (d.header.rodata_offset + d.reloc_table.get_size + j)
        = byteAt (data.set k b2)
          (d.header.rodata_offset + d.reloc_table.get_size + j)
      rw [byteAt_set_ne data k
        (d.header.rodata_offset + d.reloc_table.get_size + j) b2 (by omega)]
    rw [hfm]
  have hdata : dataCheck d data d (data.set k b2) = [] := by
    unfold dataCheck
    rw [if_neg (not_not_intro rfl)]
    have hfm : firstMismatch d.get_data_size.toNat
        (fun i => byteAt data (d.header.data_offset + i))
        (fun i => byteAt (data.set k b2) (d.header.data_offset + i))
        = none := by
      apply firstMismatch_eq_none
      intro j hj
      show byteAt data (d.header.data_offset + j)
        = byteAt (data.set k b2) (d.header.data_offset + j)
      have hge : d.header.rodata_offset + d.reloc_table.get_size
          ≤ d.header.data_offset := hw2
      rw [byteAt_set_ne data k (d.header.data_offset + j) b2 (by omega)]
    rw [hfm]
  unfold iter_diffs
  rw [textOffsetCheck_self, rodataOffsetCheck_self, dataOffsetCheck_self,
    bssOffsetCheck_self, ctorCheck_self, dtorCheck_self, exportCheck_self,
    htext, hrodata, hdata, bssSizeCheck_self]
  simp

/-- Witness for C5: flipping byte 3 (inside the `.text` span `[2, 4)`) of a
concrete buffer from `21` to `99` produces exactly the single `.text`
content report at in-section offset `1` with expected `99`, found `21`. -/
theorem C5_single_text_byte_witness :
    iter_diffs ⟨⟨2, 4, 6, 0, 0, 0, []⟩, ⟨0⟩, 8⟩ [7, 7, 20, 21, 30, 31, 40, 41] 5
        ⟨⟨2, 4, 6, 0, 0, 0, []⟩, ⟨0⟩, 8⟩
        ([7, 7, 20, 21, 30, 31, 40, 41].set 3 99) 5
      = [.textContent 1 99 21] := by
  rw [C5_single_text_byte ⟨⟨2, 4, 6, 0, 0, 0, []⟩, ⟨0⟩, 8⟩
    [7, 7, 20, 21, 30, 31, 40, 41] 5 3 99 (by decide) (by decide) (by decide)
    (by decide) (by decide)]
  decide

/-- C6: for inputs with equal `export_count`, at most one export report is
produced, and any export-mismatch report names the smallest index at which
the two `export_offsets` sequences differ: the entries differ there and
agree at every smaller index. -/
theorem C6_first_export_mismatch (base : DLL) (base_data : List Nat)
    (base_bss_size : Nat) (targ : DLL) (targ_data : List Nat)
    (targ_bss_size : Nat) (out : List Report)
    (hout : out = iter_diffs base base_data base_bss_size targ targ_data
      targ_bss_size)
    (hcount : base.header.export_count = targ.header.export_count) :
    out.countP isExportReport ≤ 1 ∧
      ∀ i e f, Report.exportMismatch i e f ∈ out →
        i < base.header.export_count ∧
          base.header.export_offsets.getD i 0
            ≠ targ.header.export_offsets.getD i 0 ∧
          ((List.range i).all fun j =>
            base.header.export_offsets.getD j 0
              == targ.header.export_offsets.getD j 0) = true := by
  subst hout
  constructor
  · unfold iter_diffs
    repeat rw [List.countP_append]
    have h0 : (textOffsetCheck base targ).countP isExportReport = 0 :=
      List.countP_eq_zero.mpr fun r hr hp => by
        have hc := category_of_mem_textOffsetCheck hr
        have h6 := category_of_isExportReport hp
        omega
    have h1 : (rodataOffsetCheck base targ).countP isExportReport = 0 :=
      List.countP_eq_zero.mpr fun r hr hp => by
        have hc := category_of_mem_rodataOffsetCheck hr
        have h6 := category_of_isExportReport hp
        omega
    have h2 : (dataOffsetCheck base targ).countP isExportReport = 0 :=
      List.countP_eq_zero.mpr fun r hr hp => by
        have hc := category_of_mem_dataOffsetCheck hr
        have h6 := category_of_isExportReport hp
        omega
    have h3 : (bssOffsetCheck base targ).countP isExportReport = 0 :=
      List.countP_eq_zero.mpr fun r hr hp => by
        have hc := category_of_mem_bssOffsetCheck hr
        have h6 := category_of_isExportReport hp
        omega
    have h4 : (ctorCheck base targ).countP isExportReport = 0 :=
      List.countP_eq_zero.mpr fun r hr hp => by
        have hc := category_of_mem_ctorCheck hr
        have h6 := category_of_isExportReport hp
        omega
    have h5 : (dtorCheck base targ).countP isExportReport = 0 :=
      List.countP_eq_zero.mpr fun r hr hp => by
        have hc := category_of_mem_dtorCheck hr
        have h6 := category_of_isExportReport hp
        omega
    have h7 : (textCheck base base_data targ targ_data).countP isExportReport
        = 0 :=
      List.countP_eq_zero.mpr fun r hr hp => by
        have hc := category_of_mem_textCheck hr
        have h6 := category_of_isExportReport hp
        omega
    have h8 : (rodataCheck base base_data targ targ_data).countP
        isExportReport = 0 :=
      List.countP_eq_zero.mpr fun r hr hp => by
        have hc := category_of_mem_rodataCheck hr
        have h6 := category_of_isExportReport hp
        omega
    have h9 : (dataCheck base base_data targ targ_data).countP isExportReport
        = 0 :=
      List.countP_eq_zero.mpr fun r hr hp => by
        have hc := category_of_mem_dataCheck hr
        have h6 := category_of_isExportReport hp
        omega
    have h10 : (bssSizeCheck base_bss_size targ_bss_size).countP
        isExportReport = 0 :=
      List.countP_eq_zero.mpr fun r hr hp => by
        have hc := category_of_mem_bssSizeCheck hr
        have h6 := category_of_isExportReport hp
        omega
    have hexp : (exportCheck base targ).countP isExportReport ≤ 1 :=
      (List.countP_le_length isExportReport).trans (length_exportCheck base targ)
    omega
  · intro i e f hmem
    have hin := (mem_block_of_category hmem).1 rfl
    unfold exportCheck at hin
    rw [if_neg (not_not_intro hcount)] at hin
    rcases hfm : firstMismatch base.header.export_count
        (fun i => base.header.export_offsets.getD i 0)
        (fun i => targ.header.export_offsets.getD i 0) with _ | m
    · rw [hfm] at hin
      simp at hin
    · rw [hfm] at hin
      simp only [List.mem_singleton, Report.exportMismatch.injEq] at hin
      obtain ⟨rfl, rfl, rfl⟩ := hin
      obtain ⟨hlt, hne, hall⟩ := firstMismatch_some_spec _ _ _ _ hfm
      refine ⟨hlt, hne, ?_⟩
      rw [List.all_eq_true]
      intro j hj
      have := hall j (List.mem_range.mp hj)
      simpa using this

/-- Witness for C6: export tables of equal count `4` differing only at
index `2`; at most one export report is produced and the report at index
`2` satisfies the first-mismatch characterisation. -/
theorem C6_first_export_mismatch_witness :
    (iter_diffs ⟨⟨2, 4, 6, 0, 0, 4, [1, 2, 5, 4]⟩, ⟨0⟩, 8⟩ [] 0
          ⟨⟨2, 4, 6, 0, 0, 4, [1, 2, 9, 4]⟩, ⟨0⟩, 8⟩ [] 0).countP
        isExportReport ≤ 1 ∧
      (2 < 4 ∧
        ([1, 2, 5, 4] : List Nat).getD 2 0 ≠ ([1, 2, 9, 4] : List Nat).getD 2 0 ∧
        ((List.range 2).all fun j =>
          ([1, 2, 5, 4] : List Nat).getD j 0
            == ([1, 2, 9, 4] : List Nat).getD j 0) = true) := by
  obtain ⟨h1, h2⟩ := C6_first_export_mismatch
    ⟨⟨2, 4, 6, 0, 0, 4, [1, 2, 5, 4]⟩, ⟨0⟩, 8⟩ [] 0
    ⟨⟨2, 4, 6, 0, 0, 4, [1, 2, 9, 4]⟩, ⟨0⟩, 8⟩ [] 0 _ rfl rfl
  exact ⟨h1, h2 2 9 5 (by decide)⟩

/-- C7: under the section-order invariant on both modules, and with each
side's recorded buffer length matching its supplied buffer, every index
read by the `.text`, `.rodata` and `.data` byte loops (which run only when
the two derived sizes are equal) is strictly below the length of the
buffer it indexes, on both sides. -/
theorem C7_content_loops_in_bounds (base : DLL) (base_data : List Nat)
    (targ : DLL) (targ_data : List Nat)
    (hwfb : SectionsWellFormed base) (hwft : SectionsWellFormed targ)
    (hlb : base.bufLen = base_data.length)
    (hlt : targ.bufLen = targ_data.length) :
    (base.get_text_size = targ.get_text_size →
        ∀ i < base.get_text_size.toNat,
          base.header.size + i < base_data.length ∧
            targ.header.size + i < targ_data.length) ∧
      (base.get_rodata_size = targ.get_rodata_size →
        ∀ i < base.get_rodata_size.toNat,
          base.header.rodata_offset + base.reloc_table.get_size + i
              < base_data.length ∧
            targ.header.rodata_offset + targ.reloc_table.get_size + i
              < targ_data.length) ∧
      (base.get_data_size = targ.get_data_size →
        ∀ i < base.get_data_size.toNat,
          base.header.data_offset + i < base_data.length ∧
            targ.header.data_offset + i < targ_data.length) := by
  obtain ⟨hb1, hb2, hb3⟩ := hwfb
  obtain ⟨ht1, ht2, ht3⟩ := hwft
  refine ⟨fun heq i hi => ?_, fun heq i hi => ?_, fun heq i hi => ?_⟩
  · simp only [DLL.get_text_size] at heq hi
    constructor <;> omega
  · simp only [DLL.get_rodata_size] at heq hi
    constructor <;> omega
  · simp only [DLL.get_data_size] at heq hi
    constructor <;> omega

/-- Witness for C7 at a concrete well-formed module pair and loop index
`1` of each content loop. -/
theorem C7_content_loops_in_bounds_witness :
    (2 + 1 < 8 ∧ 2 + 1 < 8) ∧ (4 + 0 + 1 < 8 ∧ 4 + 0 + 1 < 8) ∧
      (6 + 1 < 8 ∧ 6 + 1 < 8) := by
  obtain ⟨h1, h2, h3⟩ := C7_content_loops_in_bounds
    ⟨⟨2, 4, 6, 0, 0, 0, []⟩, ⟨0⟩, 8⟩ [0, 1, 2, 3, 4, 5, 6, 7]
    ⟨⟨2, 4, 6, 0, 0, 0, []⟩, ⟨0⟩, 8⟩ [7, 6, 5, 4, 3, 2, 1, 0]
    (by decide) (by decide) (by decide) (by decide)
  exact ⟨h1 rfl 1 (by decide), h2 rfl 1 (by decide), h3 rfl 1 (by decide)⟩

theorem pyIndex_nonneg {α : Type} (l : List α) (n : Nat) (d : α)
    (h1 : 1 ≤ n) (h2 : n ≤ l.length) :
    pyIndex l ((n : Int) - 1) = some (l.getD (n - 1) d) := by
  unfold pyIndex
  rw [if_pos (by omega)]
  have e : ((n : Int) - 1).toNat = n - 1 := by omega
  rw [e, List.getD_eq_getElem?_getD, List.getElem?_eq_getElem (by omega)]
  rfl

theorem pyIndex_neg_one {α : Type} (l : List α) (d : α) (h : l ≠ []) :
    pyIndex l (-1) = some (l.getLastD d) := by
  have hlen : 1 ≤ l.length := List.length_pos.mpr h
  unfold pyIndex
  rw [if_neg (by omega), if_pos (by omega)]
  have e : ((l.length : Int) + (-1)).toNat = l.length - 1 := by omega
  rw [e, ← List.getLast?_eq_getElem?, List.getLastD_eq_getLast?]
  have hs : l.getLast?.isSome := by
    rw [List.getLast?_isSome]
    exact h
  obtain ⟨x, hx⟩ := Option.isSome_iff_exists.mp hs
  rw [hx]
  rfl

/-- C8: for a module identifier that parses to a decimal integer `n` with
`1 ≤ n ≤` the number of table entries on both sides, the driver selects
entry `n − 1` (zero-based) of each side's module table and passes exactly
those two `bss_size` values to `iter_diffs`. -/
theorem C8_bss_lookup_off_by_one (base_tab targ_tab : DLLTab) (n : Nat)
    (base : DLL) (base_data : List Nat) (targ : DLL) (targ_data : List Nat)
    (h1 : 1 ≤ n) (h2 : n ≤ base_tab.entries.length)
    (h3 : n ≤ targ_tab.entries.length) :
    diff_reports base_tab targ_tab n base base_data targ targ_data
      = some (iter_diffs base base_data
          (base_tab.entries.getD (n - 1) ⟨0⟩).bss_size
          targ targ_data (targ_tab.entries.getD (n - 1) ⟨0⟩).bss_size) := by
  unfold diff_reports
  rw [pyIndex_nonneg base_tab.entries n ⟨0⟩ h1 h2,
    pyIndex_nonneg targ_tab.entries n ⟨0⟩ h1 h3]

/-- Witness for C8: module identifier `2` against two-entry tables selects
the second entry (zero-based index `1`) of each table. -/
theorem C8_bss_lookup_off_by_one_witness :
    diff_reports ⟨[⟨3⟩, ⟨7⟩]⟩ ⟨[⟨4⟩, ⟨9⟩]⟩ 2
        ⟨⟨0, 0, 0, 0, 0, 0, []⟩, ⟨0⟩, 0⟩ []
        ⟨⟨0, 0, 0, 0, 0, 0, []⟩, ⟨0⟩, 0⟩ []
      = some (iter_diffs ⟨⟨0, 0, 0, 0, 0, 0, []⟩, ⟨0⟩, 0⟩ [] 7
          ⟨⟨0, 0, 0, 0, 0, 0, []⟩, ⟨0⟩, 0⟩ [] 9) :=
  C8_bss_lookup_off_by_one ⟨[⟨3⟩, ⟨7⟩]⟩ ⟨[⟨4⟩, ⟨9⟩]⟩ 2
    ⟨⟨0, 0, 0, 0, 0, 0, []⟩, ⟨0⟩, 0⟩ [] ⟨⟨0, 0, 0, 0, 0, 0, []⟩, ⟨0⟩, 0⟩ []
    (by decide) (by decide) (by decide)

/-- C10: invoking the driver with module identifier `0` on non-empty
module tables raises no index error: the subscript `0 - 1 = -1` selects
the last table entry on both sides (Python negative indexing), and the
comparison proceeds with the final entries' bss sizes. -/
theorem C10_module_zero_wraps_to_last (base_tab targ_tab : DLLTab)
    (base : DLL) (base_data : List Nat) (targ : DLL) (targ_data : List Nat)
    (hb : base_tab.entries ≠ []) (ht : targ_tab.entries ≠ []) :
    diff_reports base_tab targ_tab 0 base base_data targ targ_data
      = some (iter_diffs base base_data
          (base_tab.entries.getLastD ⟨0⟩).bss_size
          targ targ_data (targ_tab.entries.getLastD ⟨0⟩).bss_size) := by
  unfold diff_reports
  have e : (0 : Int) - 1 = -1 := by omega
  rw [e, pyIndex_neg_one base_tab.entries ⟨0⟩ hb,
    pyIndex_neg_one targ_tab.entries ⟨0⟩ ht]

/-- Witness for C10: identifier `0` against two-entry tables selects the
last entry of each table. -/
theorem C10_module_zero_wraps_to_last_witness :
    diff_reports ⟨[⟨3⟩, ⟨7⟩]⟩ ⟨[⟨4⟩, ⟨9⟩]⟩ 0
        ⟨⟨0, 0, 0, 0, 0, 0, []⟩, ⟨0⟩, 0⟩ []
        ⟨⟨0, 0, 0, 0, 0, 0, []⟩, ⟨0⟩, 0⟩ []
      = some (iter_diffs ⟨⟨0, 0, 0, 0, 0, 0, []⟩, ⟨0⟩, 0⟩ [] 7
          ⟨⟨0, 0, 0, 0, 0, 0, []⟩, ⟨0⟩, 0⟩ [] 9) :=
  C10_module_zero_wraps_to_last ⟨[⟨3⟩, ⟨7⟩]⟩ ⟨[⟨4⟩, ⟨9⟩]⟩
    ⟨⟨0, 0, 0, 0, 0, 0, []⟩, ⟨0⟩, 0⟩ [] ⟨⟨0, 0, 0, 0, 0, 0, []⟩, ⟨0⟩, 0⟩ []
    (by decide) (by decide)

/-! ### Hexadecimal rendering -/

theorem startsWith0x_append (s : String) : startsWith0x ("0x" ++ s) = true := by
  unfold startsWith0x
  cases s with
  | mk cs => rfl

theorem startsWith0x_py_hex (i : Int) (h : 0 ≤ i) :
    startsWith0x (py_hex i) = true := by
  unfold py_hex
  rw [if_neg (by omega)]
  exact startsWith0x_append _

theorem startsWith0x_py_hex_nat (n : Nat) :
    startsWith0x (py_hex (n : Int)) = true :=
  startsWith0x_py_hex n (by omega)

theorem digitChar_ne_x (d : Nat) (h : d < 10) : Nat.digitChar d ≠ 'x' := by
  interval_cases d <;> decide

theorem toDigitsCore_ne_x (fuel : Nat) :
    ∀ (n : Nat) (ds : List Char), (∀ c ∈ ds, c ≠ 'x') →
      ∀ c ∈ Nat.toDigitsCore 10 fuel n ds, c ≠ 'x' := by
  induction fuel with
  | zero =>
    intro n ds hds c hc
    exact hds c hc
  | succ fuel ih =>
    intro n ds hds c hc
    simp only [Nat.toDigitsCore] at hc
    split at hc
    · rcases List.mem_cons.mp hc with rfl | hmem
      · exact digitChar_ne_x _ (Nat.mod_lt n (by omega))
      · exact hds c hmem
    · refine ih (n / 10) _ ?_ c hc
      intro c' hc'
      rcases List.mem_cons.mp hc' with rfl | hm
      · exact digitChar_ne_x _ (Nat.mod_lt n (by omega))
      · exact hds c' hm

/-- A decimal rendering consists of digit characters only, so it never
starts with `0x`. -/
theorem startsWith0x_py_dec (n : Nat) : startsWith0x (py_dec n) = false := by
  by_contra hx
  have hx' : startsWith0x (py_dec n) = true := eq_true_of_ne_false hx
  unfold startsWith0x at hx'
  rw [beq_iff_eq] at hx'
  have hmemtake : 'x' ∈ (py_dec n).data.take 2 := by
    rw [hx']
    simp
  have hmem : 'x' ∈ (py_dec n).data := List.mem_of_mem_take hmemtake
  have hdata : (py_dec n).data = Nat.toDigits 10 n := rfl
  rw [hdata] at hmem
  exact toDigitsCore_ne_x (n + 1) n [] (by simp) 'x' hmem rfl

theorem get_text_size_nonneg {d : DLL} (h : SectionsWellFormed d) :
    0 ≤ d.get_text_size := by
  obtain ⟨h1, h2, h3⟩ := h
  simp only [DLL.get_text_size]
  omega

theorem get_rodata_size_nonneg {d : DLL} (h : SectionsWellFormed d) :
    0 ≤ d.get_rodata_size := by
  obtain ⟨h1, h2, h3⟩ := h
  simp only [DLL.get_rodata_size]
  omega

theorem get_data_size_nonneg {d : DLL} (h : SectionsWellFormed d) :
    0 ≤ d.get_data_size := by
  obtain ⟨h1, h2, h3⟩ := h
  simp only [DLL.get_data_size]
  omega

theorem get_ram_size_nonneg {d : DLL} (h : SectionsWellFormed d) :
    0 ≤ d.get_ram_size := by
  have h1 := get_text_size_nonneg h
  have h2 := get_rodata_size_nonneg h
  have h3 := get_data_size_nonneg h
  unfold DLL.get_ram_size
  omega

/-- C9 counterexample: a concrete module pair with equal export counts and
export tables differing only at index `10`; the produced export-mismatch
report renders its index as the decimal `10` (Python `\x7b\x7d`), not as a
`0x`-prefixed hexadecimal value, refuting the claim that every numeric
value in a report is rendered with a leading `0x`. -/
theorem C9_counterexample :
    Report.exportMismatch 10 2 1
        ∈ iter_diffs
          ⟨⟨0, 0, 0, 0, 0, 11, [0, 0, 0, 0, 0, 0, 0, 0, 0, 0, 1]⟩, ⟨0⟩, 0⟩ [] 0
          ⟨⟨0, 0, 0, 0, 0, 11, [0, 0, 0, 0, 0, 0, 0, 0, 0, 0, 2]⟩, ⟨0⟩, 0⟩ [] 0 ∧
      py_dec 10 ∈ numericFields (Report.exportMismatch 10 2 1) ∧
      startsWith0x (py_dec 10) = false := by
  decide

/-- C9 (amended): under the section-order invariant on both modules, every
numeric value of every report produced by `iter_diffs` is rendered in
hexadecimal with a leading `0x`, with one exception: the index of the
export-mismatch report, which is rendered in decimal and never carries the
`0x` prefix. -/
theorem C9_amended_hex_rendering (base : DLL) (base_data : List Nat)
    (base_bss_size : Nat) (targ : DLL) (targ_data : List Nat)
    (targ_bss_size : Nat) (out : List Report)
    (hout : out = iter_diffs base base_data base_bss_size targ targ_data
      targ_bss_size)
    (hwfb : SectionsWellFormed base) (hwft : SectionsWellFormed targ) :
    ∀ r ∈ out, (hexFields r).all startsWith0x = true ∧
      (decFields r).all (fun s => !startsWith0x s) = true := by
  subst hout
  intro r hr
  rcases mem_iter_diffs_iff.mp hr with h | h | h | h | h | h | h | h | h | h | h
  · unfold textOffsetCheck at h
    split at h
    · simp at h
      subst h
      simp [hexFields, decFields, startsWith0x_py_hex_nat]
    · simp at h
  · unfold rodataOffsetCheck at h
    split at h
    · simp at h
      subst h
      simp [hexFields, decFields, startsWith0x_py_hex_nat]
    · simp at h
  · unfold dataOffsetCheck at h
    split at h
    · simp at h
      subst h
      simp [hexFields, decFields, startsWith0x_py_hex_nat]
    · simp at h
  · unfold bssOffsetCheck at h
    split at h
    · simp at h
      subst h
      simp [hexFields, decFields, startsWith0x_py_hex _ (get_ram_size_nonneg hwfb),
        startsWith0x_py_hex _ (get_ram_size_nonneg hwft)]
    · simp at h
  · unfold ctorCheck at h
    split at h
    · simp at h
      subst h
      simp [hexFields, decFields, startsWith0x_py_hex_nat]
    · simp at h
  · unfold dtorCheck at h
    split at h
    · simp at h
      subst h
      simp [hexFields, decFields, startsWith0x_py_hex_nat]
    · simp at h
  · unfold exportCheck at h
    split at h
    · simp at h
      subst h
      simp [hexFields, decFields, startsWith0x_py_hex_nat]
    · split at h <;> simp at h
      subst h
      simp [hexFields, decFields, startsWith0x_py_hex_nat, startsWith0x_py_dec]
  · unfold textCheck at h
    split at h
    · simp at h
      subst h
      simp [hexFields, decFields, startsWith0x_py_hex _ (get_text_size_nonneg hwfb),
        startsWith0x_py_hex _ (get_text_size_nonneg hwft)]
    · split at h <;> simp at h
      subst h
      simp [hexFields, decFields, startsWith0x_py_hex_nat]
  · unfold rodataCheck at h
    split at h
    · simp at h
      subst h
      simp [hexFields, decFields,
        startsWith0x_py_hex _ (get_rodata_size_nonneg hwfb),
        startsWith0x_py_hex _ (get_rodata_size_nonneg hwft)]
    · split at h <;> simp at h
      subst h
      simp [hexFields, decFields, startsWith0x_py_hex_nat]
  · unfold dataCheck at h
    split at h
    · simp at h
      subst h
      simp [hexFields, decFields, startsWith0x_py_hex _ (get_data_size_nonneg hwfb),
        startsWith0x_py_hex _ (get_data_size_nonneg hwft)]
    · split at h <;> simp at h
      subst h
      simp [hexFields, decFields, startsWith0x_py_hex_nat]
  · unfold bssSizeCheck at h
    split at h
    · simp at h
      subst h
      simp [hexFields, decFields, startsWith0x_py_hex_nat]
    · simp at h

/-- Witness for the amended C9 at a concrete well-formed module pair whose
bss sizes differ: the produced `.bss` size report has all its hexadecimal
fields `0x`-prefixed and no decimal field. -/
theorem C9_amended_hex_rendering_witness :
    (hexFields (Report.bssSize 3 5)).all startsWith0x = true ∧
      (decFields (Report.bssSize 3 5)).all (fun s => !startsWith0x s)
        = true := by
  exact C9_amended_hex_rendering ⟨⟨2, 4, 6, 0, 0, 0, []⟩, ⟨0⟩, 8⟩ [] 5
    ⟨⟨2, 4, 6, 0, 0, 0, []⟩, ⟨0⟩, 8⟩ [] 3 _ rfl (by decide) (by decide)
    (Report.bssSize 3 5) (by decide)

end DllDiff
